import Mathlib

/-!
Verification of the storage abstraction and service layer of the `url-map`
URL-shortening service (Rust), as a shallow embedding in Lean 4.

Conventions of the embedding:
* `DateTime<Utc>` timestamps are modelled as `Int` (an abstract instant).
* Rust `i64` counters are modelled as unbounded `Int`: no operation in the
  modelled code brings a counter near the `i64` boundary, so two's-complement
  wrapping is never observable in the properties considered here.
* `String::len()` (bytes) is modelled as `String.length` (characters); the two
  agree on ASCII input, and every boundary value considered here is ASCII.
* Fallible Rust functions returning `UrlShortenerResult<T>` become
  `Except UrlShortenerErrorType T`; the `source`/`backtrace` fields of
  `UrlShortenerError` carry no control flow and are omitted, keeping the
  `error_type` payload (`src/errors/mod.rs`).
* Lock acquisition on the memory backend's `RwLock` is modelled as always
  succeeding (the poisoned-lock branch returns `InternalError` and is dead in
  a panic-free execution); each storage operation is one atomic step, matching
  the single critical section (memory) / single SQL statement (postgres).
-/

deriving instance DecidableEq for Except

namespace UrlMap

/-- The persisted record, from `src/models/mod.rs` (`ShortenedUrl`):
`id: i64`, `original_url: String`, `short_url: String`,
`created_at: DateTime<Utc>` (modelled as `Int`), `visits: i64`. -/
structure ShortenedUrl where
  id : Int
  original_url : String
  short_url : String
  created_at : Int
  visits : Int
  deriving Repr, DecidableEq

/-- The error kinds of `src/errors/mod.rs` (`UrlShortenerErrorType`).
Note: the Rust enum has exactly these nine constructors; in particular it has
no `Conflict` variant. -/
inductive UrlShortenerErrorType where
  | InvalidUrl (msg : String)
  | UrlTooLong (msg : String)
  | NotFound
  | DatabaseError (msg : String)
  | ConnectionError (msg : String)
  | InvalidInput (msg : String)
  | RateLimitExceeded
  | BlockedUrl (msg : String)
  | InternalError (msg : String)
  deriving Repr, DecidableEq

/-- Rendering of an error kind as produced by the `Display` impl of
`UrlShortenerError` (which formats the `Debug` derive of the kind). -/
def UrlShortenerErrorType.display : UrlShortenerErrorType → String
  | .InvalidUrl m => "InvalidUrl(\"" ++ m ++ "\")"
  | .UrlTooLong m => "UrlTooLong(\"" ++ m ++ "\")"
  | .NotFound => "NotFound"
  | .DatabaseError m => "DatabaseError(\"" ++ m ++ "\")"
  | .ConnectionError m => "ConnectionError(\"" ++ m ++ "\")"
  | .InvalidInput m => "InvalidInput(\"" ++ m ++ "\")"
  | .RateLimitExceeded => "RateLimitExceeded"
  | .BlockedUrl m => "BlockedUrl(\"" ++ m ++ "\")"
  | .InternalError m => "InternalError(\"" ++ m ++ "\")"

/-! ## Memory backend (`src/storage/memory.rs`)

`MemoryStorage` holds `RwLock<HashMap<String, ShortenedUrl>>`. The `HashMap`
is modelled as an association list with `std::collections::HashMap` insert
semantics (`insert` replaces the value of an existing key). -/

/-- The state of `MemoryStorage`: the map under the `RwLock`. -/
abbrev MemMap := List (String × ShortenedUrl)

/-- `HashMap::get` / `HashMap::get_mut` lookup. -/
def mapFind : MemMap → String → Option ShortenedUrl
  | [], _ => none
  | (k, v) :: rest, code => if k = code then some v else mapFind rest code

/-- `HashMap::insert`: replaces the value stored under an existing key,
otherwise appends the new binding. -/
def mapInsert : MemMap → String → ShortenedUrl → MemMap
  | [], code, v => [(code, v)]
  | (k, v') :: rest, code, v =>
      if k = code then (code, v) :: rest else (k, v') :: mapInsert rest code v

namespace MemoryStorage

/-- `MemoryStorage::save_url`: takes the write lock, unconditionally inserts
`url` under key `url.short_url` (replacing any existing entry), returns `url`.
There is no existence check. -/
def save_url (m : MemMap) (url : ShortenedUrl) :
    Except UrlShortenerErrorType ShortenedUrl × MemMap :=
  (.ok url, mapInsert m url.short_url url)

/-- `MemoryStorage::get_url`: takes the write lock; if the key is present,
increments `visits` in place and returns a clone of the updated entity;
otherwise returns `NotFound` without touching the map. -/
def get_url (m : MemMap) (short_code : String) :
    Except UrlShortenerErrorType ShortenedUrl × MemMap :=
  match mapFind m short_code with
  | some url =>
      let url' := { url with visits := url.visits + 1 }
      (.ok url', mapInsert m short_code url')
  | none => (.error .NotFound, m)

/-- `MemoryStorage::get_stats`: takes the read lock; clones the entity out if
present, else `NotFound`. The map is never mutated (read lock only). -/
def get_stats (m : MemMap) (short_code : String) :
    Except UrlShortenerErrorType ShortenedUrl × MemMap :=
  match mapFind m short_code with
  | some url => (.ok url, m)
  | none => (.error .NotFound, m)

end MemoryStorage

/-! ## Transactional backend (`src/storage/postgres.rs`)

The relational table `shortened_urls` (columns `id, original_url, short_url,
created_at, visits`, with a UNIQUE constraint on `short_url`) is modelled as a
list of rows. Quantities the database supplies at runtime — the generated
surrogate `id`, the bound `Utc::now()` timestamp, and the success or failure of
`COMMIT` / `ROLLBACK` — enter the model as explicit parameters. -/

/-- The rows of the `shortened_urls` table. -/
abbrev Db := List ShortenedUrl

/-- `SELECT ... WHERE short_url = $1` with `fetch_one`: the unique matching
row, if any. -/
def dbFind (db : Db) (code : String) : Option ShortenedUrl :=
  db.find? fun r => r.short_url = code

/-- `UPDATE ... WHERE short_url = code`: replace every matching row by `r'`
(under the UNIQUE constraint at most one row matches). -/
def dbUpdate (db : Db) (code : String) (r' : ShortenedUrl) : Db :=
  db.map fun r => if r.short_url = code then r' else r

/-- The `sqlx::Error` values distinguished by the code:
`RowNotFound`, `Database(db_err)` carrying an optional SQLSTATE code and a
message, and any other error rendered as a message. -/
inductive SqlxError where
  | RowNotFound
  | Database (code : Option String) (msg : String)
  | Other (msg : String)
  deriving Repr, DecidableEq

/-- The `to_string()` rendering a `sqlx::Error` contributes when it falls
through to the catch-all arm of `handle_error`. -/
def SqlxError.render : SqlxError → String
  | .RowNotFound => "no rows returned by a query that expected to return at least one row"
  | .Database _ m => m
  | .Other m => m

/-- Outcome of a `COMMIT` or `ROLLBACK` statement, supplied by the database. -/
inductive TxFinish where
  | ok
  | fail (msg : String)
  deriving Repr, DecidableEq

namespace PostgresStorage

/-- `PostgresStorage::handle_error` (`src/storage/postgres.rs:33-46`):
`RowNotFound ↦ NotFound`; a database error with SQLSTATE 23505 (unique
violation) ↦ `DatabaseError("Short URL already exists")`; anything else ↦
`DatabaseError(error.to_string())`. -/
def handle_error (error : SqlxError) : UrlShortenerErrorType :=
  match error with
  | .RowNotFound => .NotFound
  | .Database code msg =>
      if code = some "23505" then .DatabaseError "Short URL already exists"
      else .DatabaseError (SqlxError.render (.Database code msg))
  | e => .DatabaseError e.render

/-- `PostgresStorage::save_url_tx`: `INSERT ... RETURNING`, binding
`url.original_url`, `url.short_url`, `Utc::now()` (the `now` parameter) and
`0i64` for `visits`; the database assigns `id` (the `freshId` parameter). A
duplicate `short_url` violates the UNIQUE constraint and surfaces as a
database error with SQLSTATE 23505, routed through `handle_error`. -/
def save_url_tx (db : Db) (url : ShortenedUrl) (now freshId : Int) :
    Except UrlShortenerErrorType (ShortenedUrl × Db) :=
  if db.any fun r => r.short_url = url.short_url then
    .error (handle_error (.Database (some "23505")
      "duplicate key value violates unique constraint"))
  else
    let row : ShortenedUrl :=
      { id := freshId, original_url := url.original_url,
        short_url := url.short_url, created_at := now, visits := 0 }
    .ok (row, db ++ [row])

/-- `PostgresStorage::get_url_tx`: with `increment_visits = true`, one atomic
`UPDATE ... SET visits = visits + 1 ... RETURNING` fetched with `fetch_one`
(zero rows ⇒ `RowNotFound`); with `increment_visits = false`, a plain
`SELECT`. Both routes errors through `handle_error`. -/
def get_url_tx (db : Db) (short_url : String) (increment_visits : Bool) :
    Except UrlShortenerErrorType (ShortenedUrl × Db) :=
  if increment_visits then
    match dbFind db short_url with
    | some r =>
        let r' := { r with visits := r.visits + 1 }
        .ok (r', dbUpdate db short_url r')
    | none => .error (handle_error .RowNotFound)
  else
    match dbFind db short_url with
    | some r => .ok (r, db)
    | none => .error (handle_error .RowNotFound)

/-- The shared commit/rollback scaffold of `save_url` / `get_url` /
`get_stats` (`src/storage/postgres.rs:117-190`): on an `Ok` transaction
result, commit (a commit failure becomes `DatabaseError`); on an `Err`,
attempt rollback — if rollback succeeds the original error is returned, if
rollback also fails the two causes are combined into one `DatabaseError`
message `"Error: {e}. Rollback failed: {rollback_err}"`. The second component
is the externally visible table state. -/
def finish_tx (db : Db) (result : Except UrlShortenerErrorType (ShortenedUrl × Db))
    (commitR rollbackR : TxFinish) :
    Except UrlShortenerErrorType ShortenedUrl × Db :=
  match result with
  | .ok (row, db') =>
      match commitR with
      | .ok => (.ok row, db')
      | .fail m => (.error (.DatabaseError m), db)
  | .error e =>
      match rollbackR with
      | .ok => (.error e, db)
      | .fail m =>
          (.error (.DatabaseError
            ("Error: " ++ e.display ++ ". Rollback failed: " ++ m)), db)

/-- `PostgresStorage::save_url`: begin, `save_url_tx`, commit/rollback. -/
def save_url (db : Db) (url : ShortenedUrl) (now freshId : Int)
    (commitR rollbackR : TxFinish) :
    Except UrlShortenerErrorType ShortenedUrl × Db :=
  finish_tx db (save_url_tx db url now freshId) commitR rollbackR

/-- `PostgresStorage::get_url`: begin, `get_url_tx(_, true)`, commit/rollback. -/
def get_url (db : Db) (short_url : String) (commitR rollbackR : TxFinish) :
    Except UrlShortenerErrorType ShortenedUrl × Db :=
  finish_tx db (get_url_tx db short_url true) commitR rollbackR

/-- `PostgresStorage::get_stats`: begin, `get_url_tx(_, false)`, commit/rollback. -/
def get_stats (db : Db) (short_url : String) (commitR rollbackR : TxFinish) :
    Except UrlShortenerErrorType ShortenedUrl × Db :=
  finish_tx db (get_url_tx db short_url false) commitR rollbackR

end PostgresStorage

/-! ## Short-code generation (`nanoid!(10)` in `src/services/mod.rs:73`)

The `nanoid` crate's macro with a single numeric argument draws that many
symbols from the crate's default URL-safe alphabet
(`nanoid::alphabet::SAFE`, 64 characters: `_`, `-`, digits, lowercase and
uppercase ASCII letters). The random source is modelled as an explicit list
of naturals; each is reduced modulo the alphabet size to an index, which is
how the crate maps uniformly distributed random bytes onto the alphabet. -/

/-- The 64-character default alphabet of the `nanoid` crate
(`nanoid::alphabet::SAFE`): underscore, hyphen, the ten digits, the lowercase
and the uppercase ASCII letters, in that order. -/
def nanoidAlphabet : List Char :=
  ['_', '-']
    ++ (List.range 10).map (fun n => Char.ofNat (48 + n))
    ++ (List.range 26).map (fun n => Char.ofNat (97 + n))
    ++ (List.range 26).map (fun n => Char.ofNat (65 + n))

/-- `nanoid!(size)`: a `size`-character token over `nanoidAlphabet`, the
`i`-th character selected by the `i`-th value of the random source. -/
def nanoid (randomness : List Nat) (size : Nat) : String :=
  String.mk ((List.range size).map fun i =>
    nanoidAlphabet.getD (randomness.getD i 0 % nanoidAlphabet.length) '_')

/-! ## URL service (`src/services/mod.rs`)

The service is generic over the injected `StorageRef`; it is instantiated
here with the memory backend, the backend its own test suite uses, so a
service state is a `MemMap`. Two runtime inputs of `create_short_url` enter
as parameters: the token produced by `nanoid!(10)` and the `Utc::now()`
timestamp.

`Url::parse` followed by `Url::to_string` (the external `url` crate) is
modelled as a parameter `parseUrl : String → Except String String`: `.ok c`
means the input parses as an absolute URL with canonical serialization `c`,
`.error m` a parse failure with message `m`. -/

/-- The service-layer record `services::ShortenedUrl` (`visits: u64`,
modelled as `Int`; the `as i64` / `as u64` casts in the two `From` impls are
identity on the non-negative range used here). -/
structure ServiceUrl where
  short_code : String
  original_url : String
  created_at : Int
  visits : Int
  deriving Repr, DecidableEq

/-- `From<services::ShortenedUrl> for models::ShortenedUrl`: `id` set to 0
("will be set by storage layer"). -/
def ServiceUrl.toStorage (u : ServiceUrl) : ShortenedUrl :=
  { id := 0, original_url := u.original_url, short_url := u.short_code,
    created_at := u.created_at, visits := u.visits }

/-- `From<models::ShortenedUrl> for services::ShortenedUrl`. -/
def ServiceUrl.ofStorage (u : ShortenedUrl) : ServiceUrl :=
  { short_code := u.short_url, original_url := u.original_url,
    created_at := u.created_at, visits := u.visits }

namespace UrlService

/-- `UrlService::create_short_url` (`src/services/mod.rs:51-105`): parse the
raw URL (failure ⇒ `InvalidUrl` with the parse-error message); then reject
raw inputs longer than 2048 with `UrlTooLong`; then build the entity with the
canonical URL string, the fresh token, `Utc::now()` and `visits = 0`, convert
it to the storage shape, and delegate to `save_url`, propagating any storage
error unchanged. Exactly one save attempt is made. -/
def create_short_url (parseUrl : String → Except String String)
    (st : MemMap) (token : String) (now : Int) (original_url : String) :
    Except UrlShortenerErrorType ServiceUrl × MemMap :=
  match parseUrl original_url with
  | .error e => (.error (.InvalidUrl e), st)
  | .ok canonical =>
      if original_url.length > 2048 then
        (.error (.UrlTooLong "URL exceeds 2048 characters"), st)
      else
        let shortened : ServiceUrl :=
          { short_code := token, original_url := canonical,
            created_at := now, visits := 0 }
        match MemoryStorage.save_url st shortened.toStorage with
        | (.ok saved, st') => (.ok (ServiceUrl.ofStorage saved), st')
        | (.error e, st') => (.error e, st')

/-- `UrlService::get_original_url`: delegate to `get_url` (which increments
`visits`), project the `original_url` field, propagate errors unchanged. -/
def get_original_url (st : MemMap) (short_code : String) :
    Except UrlShortenerErrorType String × MemMap :=
  match MemoryStorage.get_url st short_code with
  | (.ok url, st') => (.ok url.original_url, st')
  | (.error e, st') => (.error e, st')

/-- `UrlService::get_url_stats`: delegate to `get_stats`, convert to the
service shape, propagate errors unchanged. -/
def get_url_stats (st : MemMap) (short_code : String) :
    Except UrlShortenerErrorType ServiceUrl × MemMap :=
  match MemoryStorage.get_stats st short_code with
  | (.ok url, st') => (.ok (ServiceUrl.ofStorage url), st')
  | (.error e, st') => (.error e, st')

end UrlService

/-- The internal invariant of the memory backend's map: every binding's key
is the `short_url` field of the entity stored under it. -/
def MapInv (m : MemMap) : Prop :=
  ∀ p ∈ m, p.1 = p.2.short_url

instance (m : MemMap) : Decidable (MapInv m) := by
  unfold MapInv
  infer_instance

/-! # Theorems -/

/-! Basic lemmas about the association-list map. -/

theorem mapFind_mapInsert_self (m : MemMap) (k : String) (v : ShortenedUrl) :
    mapFind (mapInsert m k v) k = some v := by
  induction m with
  | nil => simp [mapInsert, mapFind]
  | cons p rest ih =>
      obtain ⟨k', v'⟩ := p
      by_cases h : k' = k
      · simp [mapInsert, h, mapFind]
      · simp [mapInsert, h, mapFind, ih]

theorem mapFind_mapInsert_ne (m : MemMap) (k k' : String) (v : ShortenedUrl)
    (h : k ≠ k') : mapFind (mapInsert m k v) k' = mapFind m k' := by
  induction m with
  | nil => simp [mapInsert, mapFind, h]
  | cons p rest ih =>
      obtain ⟨k₀, v₀⟩ := p
      by_cases h₀ : k₀ = k
      · subst h₀
        simp [mapInsert, mapFind, h]
      · simp [mapInsert, h₀, mapFind, ih]

theorem mem_mapInsert (m : MemMap) (k : String) (v : ShortenedUrl)
    (p : String × ShortenedUrl) (hp : p ∈ mapInsert m k v) :
    p = (k, v) ∨ p ∈ m := by
  induction m with
  | nil => simpa [mapInsert] using hp
  | cons q rest ih =>
      obtain ⟨k₀, v₀⟩ := q
      by_cases h₀ : k₀ = k
      · simp [mapInsert, h₀] at hp
        rcases hp with h | h
        · left; simp [h]
        · right; simp [h]
      · simp [mapInsert, h₀] at hp
        rcases hp with h | h
        · right; simp [h]
        · rcases ih h with h' | h'
          · left; exact h'
          · right; simp [h']

theorem mapFind_mem (m : MemMap) (k : String) (v : ShortenedUrl)
    (h : mapFind m k = some v) : (k, v) ∈ m := by
  induction m with
  | nil => simp [mapFind] at h
  | cons p rest ih =>
      obtain ⟨k₀, v₀⟩ := p
      by_cases h₀ : k₀ = k
      · subst h₀
        simp [mapFind] at h
        simp [h]
      · simp [mapFind, h₀] at h
        simp [ih h]

theorem mapInv_insert (m : MemMap) (k : String) (v : ShortenedUrl)
    (hm : MapInv m) (hk : k = v.short_url) : MapInv (mapInsert m k v) := by
  intro p hp
  rcases mem_mapInsert m k v p hp with h | h
  · rw [h]; exact hk
  · exact hm p h

theorem mapInv_find (m : MemMap) (k : String) (v : ShortenedUrl)
    (hm : MapInv m) (h : mapFind m k = some v) : v.short_url = k :=
  (hm (k, v) (mapFind_mem m k v h)).symm

/-- C2: for every stored `short_code`, the storage get operation increments
that entity's `visits` by exactly 1, stores the incremented entity back, and
returns the post-increment entity; for an absent `short_code` it fails with
`NotFound` (leaving the state untouched). Stated for `MemoryStorage::get_url`
and for `PostgresStorage::get_url_tx` with `increment_visits = true` (the
single atomic `UPDATE ... RETURNING`). -/
theorem c2_get_url_increments_and_not_found :
    (∀ (m : MemMap) (code : String) (u : ShortenedUrl),
        mapFind m code = some u →
        MemoryStorage.get_url m code =
          (.ok { u with visits := u.visits + 1 },
           mapInsert m code { u with visits := u.visits + 1 })) ∧
    (∀ (m : MemMap) (code : String), mapFind m code = none →
        MemoryStorage.get_url m code = (.error .NotFound, m)) ∧
    (∀ (db : Db) (code : String) (r : ShortenedUrl),
        dbFind db code = some r →
        PostgresStorage.get_url_tx db code true =
          .ok ({ r with visits := r.visits + 1 },
               dbUpdate db code { r with visits := r.visits + 1 })) ∧
    (∀ (db : Db) (code : String), dbFind db code = none →
        PostgresStorage.get_url_tx db code true = .error .NotFound) := by
  refine ⟨?_, ?_, ?_, ?_⟩
  · intro m code u h
    simp [MemoryStorage.get_url, h]
  · intro m code h
    simp [MemoryStorage.get_url, h]
  · intro db code r h
    simp [PostgresStorage.get_url_tx, h]
  · intro db code h
    simp [PostgresStorage.get_url_tx, h, PostgresStorage.handle_error]

/-- Witness for C2 at concrete inputs. -/
theorem c2_get_url_increments_and_not_found_witness :
    MemoryStorage.get_url [("abc", ⟨1, "https://e.com/", "abc", 0, 3⟩)] "abc"
      = (.ok ⟨1, "https://e.com/", "abc", 0, 4⟩,
         [("abc", ⟨1, "https://e.com/", "abc", 0, 4⟩)]) ∧
    MemoryStorage.get_url [] "zzz" = (.error .NotFound, []) ∧
    PostgresStorage.get_url_tx [⟨1, "https://e.com/", "abc", 0, 3⟩] "abc" true
      = .ok (⟨1, "https://e.com/", "abc", 0, 4⟩,
             [⟨1, "https://e.com/", "abc", 0, 4⟩]) ∧
    PostgresStorage.get_url_tx [] "zzz" true = .error .NotFound := by
  obtain ⟨h1, h2, h3, h4⟩ := c2_get_url_increments_and_not_found
  refine ⟨?_, ?_, ?_, ?_⟩
  · rw [h1 [("abc", ⟨1, "https://e.com/", "abc", 0, 3⟩)] "abc"
        ⟨1, "https://e.com/", "abc", 0, 3⟩ (by decide)]
    decide
  · exact h2 [] "zzz" (by decide)
  · rw [h3 [⟨1, "https://e.com/", "abc", 0, 3⟩] "abc"
        ⟨1, "https://e.com/", "abc", 0, 3⟩ (by decide)]
    decide
  · exact h4 [] "zzz" (by decide)

/-- C7: `get_stats` never changes the storage state and returns the stored
entity unchanged (or `NotFound`); a `NotFound` failure of `get_url` or
`get_stats` leaves the state exactly as before; the service-level
`get_url_stats` likewise never changes the state. -/
theorem c7_stats_and_not_found_are_pure :
    (∀ (m : MemMap) (code : String), (MemoryStorage.get_stats m code).2 = m) ∧
    (∀ (m : MemMap) (code : String) (u : ShortenedUrl),
        mapFind m code = some u →
        (MemoryStorage.get_stats m code).1 = .ok u) ∧
    (∀ (m : MemMap) (code : String), mapFind m code = none →
        MemoryStorage.get_stats m code = (.error .NotFound, m)) ∧
    (∀ (m : MemMap) (code : String), mapFind m code = none →
        MemoryStorage.get_url m code = (.error .NotFound, m)) ∧
    (∀ (m : MemMap) (code : String), (UrlService.get_url_stats m code).2 = m) := by
  refine ⟨?_, ?_, ?_, ?_, ?_⟩
  · intro m code
    cases h : mapFind m code <;> simp [MemoryStorage.get_stats, h]
  · intro m code u h
    simp [MemoryStorage.get_stats, h]
  · intro m code h
    simp [MemoryStorage.get_stats, h]
  · intro m code h
    simp [MemoryStorage.get_url, h]
  · intro m code
    cases h : mapFind m code <;>
      simp [UrlService.get_url_stats, MemoryStorage.get_stats, h]

/-- Witness for C7 at concrete inputs. -/
theorem c7_stats_and_not_found_are_pure_witness :
    (MemoryStorage.get_stats [("abc", ⟨1, "https://e.com/", "abc", 0, 3⟩)] "abc").2
      = [("abc", ⟨1, "https://e.com/", "abc", 0, 3⟩)] ∧
    (MemoryStorage.get_stats [("abc", ⟨1, "https://e.com/", "abc", 0, 3⟩)] "abc").1
      = .ok ⟨1, "https://e.com/", "abc", 0, 3⟩ ∧
    MemoryStorage.get_stats [("abc", ⟨1, "https://e.com/", "abc", 0, 3⟩)] "nonexistent"
      = (.error .NotFound, [("abc", ⟨1, "https://e.com/", "abc", 0, 3⟩)]) ∧
    MemoryStorage.get_url [("abc", ⟨1, "https://e.com/", "abc", 0, 3⟩)] "nonexistent"
      = (.error .NotFound, [("abc", ⟨1, "https://e.com/", "abc", 0, 3⟩)]) ∧
    (UrlService.get_url_stats [("abc", ⟨1, "https://e.com/", "abc", 0, 3⟩)] "abc").2
      = [("abc", ⟨1, "https://e.com/", "abc", 0, 3⟩)] := by
  obtain ⟨h1, h2, h3, h4, h5⟩ := c7_stats_and_not_found_are_pure
  exact ⟨h1 _ "abc", h2 _ "abc" _ (by decide), h3 _ "nonexistent" (by decide),
         h4 _ "nonexistent" (by decide), h5 _ "abc"⟩

/-- C10: in the memory backend every key of the map equals the `short_url`
field of the entity stored under it; the invariant is preserved by
`save_url`, `get_url` and `get_stats`, and under it an entity looked up by a
short code carries that same short code. -/
theorem c10_memory_map_key_invariant :
    (∀ (m : MemMap) (url : ShortenedUrl), MapInv m →
        MapInv (MemoryStorage.save_url m url).2) ∧
    (∀ (m : MemMap) (code : String), MapInv m →
        MapInv (MemoryStorage.get_url m code).2) ∧
    (∀ (m : MemMap) (code : String), MapInv m →
        MapInv (MemoryStorage.get_stats m code).2) ∧
    (∀ (m : MemMap) (code : String) (u : ShortenedUrl), MapInv m →
        mapFind m code = some u → u.short_url = code) := by
  refine ⟨?_, ?_, ?_, ?_⟩
  · intro m url hm
    exact mapInv_insert m url.short_url url hm rfl
  · intro m code hm
    cases h : mapFind m code with
    | some u =>
        have hcode : u.short_url = code := mapInv_find m code u hm h
        simp only [MemoryStorage.get_url, h]
        exact mapInv_insert m code { u with visits := u.visits + 1 } hm
          (by simp [hcode])
    | none => simpa [MemoryStorage.get_url, h] using hm
  · intro m code hm
    cases h : mapFind m code <;> simpa [MemoryStorage.get_stats, h] using hm
  · intro m code u hm h
    exact mapInv_find m code u hm h

/-- Witness for C10 at concrete inputs. -/
theorem c10_memory_map_key_invariant_witness :
    MapInv (MemoryStorage.save_url [("abc", ⟨1, "https://e.com/", "abc", 0, 0⟩)]
      ⟨2, "https://b.com/", "bcd", 0, 0⟩).2 ∧
    MapInv (MemoryStorage.get_url [("abc", ⟨1, "https://e.com/", "abc", 0, 0⟩)] "abc").2 ∧
    MapInv (MemoryStorage.get_stats [("abc", ⟨1, "https://e.com/", "abc", 0, 0⟩)] "abc").2 ∧
    (ShortenedUrl.mk 1 "https://e.com/" "abc" 0 0).short_url = "abc" := by
  obtain ⟨h1, h2, h3, h4⟩ := c10_memory_map_key_invariant
  exact ⟨h1 _ _ (by decide), h2 _ "abc" (by decide), h3 _ "abc" (by decide),
         h4 [("abc", ⟨1, "https://e.com/", "abc", 0, 0⟩)] "abc" _ (by decide) (by decide)⟩

/-- C1 (code behavior at the failing input): saving an entity whose
`short_code` is already present does NOT fail with a Conflict error in either
backend. The memory backend's `save_url` succeeds and silently replaces the
existing entity; the transactional backend's `handle_error` maps the SQLSTATE
23505 uniqueness violation to `DatabaseError "Short URL already exists"` —
the error enum of `src/errors/mod.rs` has no `Conflict` variant at all. -/
theorem c1_duplicate_save_code_behavior :
    MemoryStorage.save_url
        [("abc", ⟨1, "https://a.com/", "abc", 0, 0⟩)]
        ⟨2, "https://b.com/", "abc", 0, 0⟩
      = (.ok ⟨2, "https://b.com/", "abc", 0, 0⟩,
         [("abc", ⟨2, "https://b.com/", "abc", 0, 0⟩)]) ∧
    PostgresStorage.handle_error
        (.Database (some "23505") "duplicate key value violates unique constraint")
      = .DatabaseError "Short URL already exists" := by
  constructor <;> decide

/-- C4 (counterexample): the memory backend's `save_url` persists and returns
the caller-supplied entity verbatim — here an entity with `visits = 7`,
`id = 42` and `created_at = 99` is stored and returned with those exact
values, so the persisted entity does not have `visits = 0` and no
backend-assigned `id`/`created_at`. -/
theorem c4_memory_save_keeps_caller_fields :
    (MemoryStorage.save_url [] ⟨42, "https://e.com/", "abc", 99, 7⟩).1
      = .ok ⟨42, "https://e.com/", "abc", 99, 7⟩ ∧
    (ShortenedUrl.mk 42 "https://e.com/" "abc" 99 7).visits ≠ 0 := by
  constructor <;> decide

/-- C4 (amended): the transactional backend's `save_url_tx` persists a row
with `visits = 0` and the backend-assigned `id` and `created_at`, discarding
whatever the caller supplied in those fields; the memory backend, by
contrast, persists and returns the caller's entity exactly as supplied. -/
theorem c4_amended_backend_field_assignment (db : Db) (url : ShortenedUrl)
    (now freshId : Int)
    (h : (db.any fun r => r.short_url = url.short_url) = false) :
    PostgresStorage.save_url_tx db url now freshId
      = .ok (⟨freshId, url.original_url, url.short_url, now, 0⟩,
             db ++ [⟨freshId, url.original_url, url.short_url, now, 0⟩]) ∧
    ∀ m : MemMap,
      MemoryStorage.save_url m url = (.ok url, mapInsert m url.short_url url) := by
  constructor
  · simp [PostgresStorage.save_url_tx, h]
  · intro m
    rfl

/-- Witness for the amended C4 at concrete inputs. -/
theorem c4_amended_backend_field_assignment_witness :
    PostgresStorage.save_url_tx [] ⟨42, "https://e.com/", "abc", 99, 7⟩ 5 1
      = .ok (⟨1, "https://e.com/", "abc", 5, 0⟩,
             [⟨1, "https://e.com/", "abc", 5, 0⟩]) ∧
    MemoryStorage.save_url [] ⟨42, "https://e.com/", "abc", 99, 7⟩
      = (.ok ⟨42, "https://e.com/", "abc", 99, 7⟩,
         [("abc", ⟨42, "https://e.com/", "abc", 99, 7⟩)]) := by
  obtain ⟨h1, h2⟩ := c4_amended_backend_field_assignment []
    ⟨42, "https://e.com/", "abc", 99, 7⟩ 5 1 (by decide)
  constructor
  · rw [h1]
    decide
  · rw [h2 []]
    decide

/-- C5 (code behavior at the failing input): `create_short_url` makes exactly
one save attempt and never retries. When two calls draw the same token
"tok0000000", both succeed, both returned entities share that `short_code`,
and the second call's entity silently replaces the first in storage — there
is no Conflict detection, no bounded retry, and no "allocation exhausted"
error (no such variant exists in the error enum). -/
theorem c5_no_collision_retry_code_behavior :
    (UrlService.create_short_url (fun s => .ok (s ++ "/")) []
        "tok0000000" 0 "https://a.com").1
      = .ok ⟨"tok0000000", "https://a.com/", 0, 0⟩ ∧
    UrlService.create_short_url (fun s => .ok (s ++ "/"))
        (UrlService.create_short_url (fun s => .ok (s ++ "/")) []
          "tok0000000" 0 "https://a.com").2
        "tok0000000" 1 "https://b.com"
      = (.ok ⟨"tok0000000", "https://b.com/", 1, 0⟩,
         [("tok0000000", ⟨0, "https://b.com/", "tok0000000", 1, 0⟩)]) := by
  constructor <;> decide

theorem getD_mem_nanoidAlphabet (n : Nat) :
    nanoidAlphabet.getD n '_' ∈ nanoidAlphabet := by
  rcases h : nanoidAlphabet[n]? with _ | c
  · simp [List.getD, h]
    decide
  · have hc : c ∈ nanoidAlphabet := by
      obtain ⟨hlt, heq⟩ := List.getElem?_eq_some.mp h
      exact heq ▸ List.getElem_mem hlt
    simpa [List.getD, h] using hc

/-- C9 (counterexample): the short-code generator can emit the character
`'_'`, which is not alphanumeric — a random source that keeps selecting
index 0 yields the token `"__________"`. The generator's alphabet is the
`nanoid` crate's URL-safe alphabet, not an alphanumeric one. -/
theorem c9_token_can_be_non_alphanumeric :
    '_' ∈ (nanoid (List.replicate 10 0) 10).data ∧ ¬ '_'.isAlphanum := by
  constructor <;> decide

/-- C9 (amended): for every random source, `nanoid!(10)` produces a token of
fixed length exactly 10 (hence within 6–10) whose characters are all drawn
from the fixed 64-character URL-safe alphabet of the `nanoid` crate — the
alphanumerics together with `'_'` and `'-'`. -/
theorem c9_amended_token_shape (randomness : List Nat) :
    (nanoid randomness 10).length = 10 ∧
    6 ≤ (nanoid randomness 10).length ∧
    (nanoid randomness 10).length ≤ 10 ∧
    ∀ c ∈ (nanoid randomness 10).data, c ∈ nanoidAlphabet := by
  have hlen : (nanoid randomness 10).length = 10 := by
    simp [nanoid, String.length]
  refine ⟨hlen, by omega, by omega, ?_⟩
  intro c hc
  simp only [nanoid, List.mem_map] at hc
  obtain ⟨i, _, heq⟩ := hc
  exact heq ▸ getD_mem_nanoidAlphabet _

/-- C3: for a raw URL accepted by the parser with canonical form
`canonical` and raw length at most 2048, `create_short_url` succeeds with the
generated token as short code and stores the canonical form; resolving that
token through `get_original_url` on the post-creation state returns the
canonical form (not necessarily the raw input). -/
theorem c3_round_trip_returns_canonical_form
    (parseUrl : String → Except String String) (st : MemMap)
    (u canonical token : String) (now : Int)
    (hparse : parseUrl u = .ok canonical) (hlen : u.length ≤ 2048) :
    (UrlService.create_short_url parseUrl st token now u).1
      = .ok ⟨token, canonical, now, 0⟩ ∧
    (UrlService.get_original_url
        (UrlService.create_short_url parseUrl st token now u).2 token).1
      = .ok canonical := by
  have hnot : ¬ u.length > 2048 := by omega
  constructor
  · simp [UrlService.create_short_url, hparse, hnot, MemoryStorage.save_url,
      ServiceUrl.ofStorage, ServiceUrl.toStorage]
  · simp [UrlService.create_short_url, hparse, hnot, MemoryStorage.save_url,
      UrlService.get_original_url, MemoryStorage.get_url, ServiceUrl.toStorage,
      mapFind_mapInsert_self]

/-- Witness for C3: the spec's own example — a bare host gains a trailing
slash, and the round trip returns `"https://example.com/"`, not the raw
input `"https://example.com"`. -/
theorem c3_round_trip_returns_canonical_form_witness :
    (UrlService.create_short_url
        (fun s => if s = "https://example.com" then .ok "https://example.com/"
                  else .error "relative URL without a base")
        [] "tok0000000" 0 "https://example.com").1
      = .ok ⟨"tok0000000", "https://example.com/", 0, 0⟩ ∧
    (UrlService.get_original_url
        (UrlService.create_short_url
          (fun s => if s = "https://example.com" then .ok "https://example.com/"
                    else .error "relative URL without a base")
          [] "tok0000000" 0 "https://example.com").2 "tok0000000").1
      = .ok "https://example.com/" :=
  c3_round_trip_returns_canonical_form
    (fun s => if s = "https://example.com" then .ok "https://example.com/"
              else .error "relative URL without a base")
    [] "https://example.com" "https://example.com/" "tok0000000" 0
    (by decide) (by decide)

/-- C6: `create_short_url` fails with `InvalidUrl` (carrying the parse-error
message) exactly when the raw input does not parse as an absolute URL; on a
parsed input the length check runs on the original input length, before the
canonical string is used: a raw length over 2048 fails with `UrlTooLong`, a
raw length of at most 2048 passes both checks and succeeds. -/
theorem c6_validation_boundaries (parseUrl : String → Except String String)
    (st : MemMap) (token : String) (now : Int) (s : String) :
    (∀ e, parseUrl s = .error e →
        (UrlService.create_short_url parseUrl st token now s).1
          = .error (.InvalidUrl e)) ∧
    (∀ m, (UrlService.create_short_url parseUrl st token now s).1
          = .error (.InvalidUrl m) → ∃ e, parseUrl s = .error e) ∧
    (∀ c, parseUrl s = .ok c → s.length > 2048 →
        (UrlService.create_short_url parseUrl st token now s).1
          = .error (.UrlTooLong "URL exceeds 2048 characters")) ∧
    (∀ c, parseUrl s = .ok c → s.length ≤ 2048 →
        (UrlService.create_short_url parseUrl st token now s).1
          = .ok ⟨token, c, now, 0⟩) := by
  refine ⟨?_, ?_, ?_, ?_⟩
  · intro e he
    simp [UrlService.create_short_url, he]
  · intro m hm
    cases hp : parseUrl s with
    | error e => exact ⟨e, rfl⟩
    | ok c =>
        exfalso
        by_cases hl : s.length > 2048 <;>
          simp [UrlService.create_short_url, hp, hl,
            MemoryStorage.save_url] at hm
  · intro c hc hl
    simp [UrlService.create_short_url, hc, hl]
  · intro c hc hl
    have hnot : ¬ s.length > 2048 := by omega
    simp [UrlService.create_short_url, hc, hnot, MemoryStorage.save_url,
      ServiceUrl.ofStorage, ServiceUrl.toStorage]

/-- Witness for C6: `"not-a-url"` is rejected as `InvalidUrl`; a raw input of
exactly 2048 characters passes the length check and succeeds; one of 2049
characters fails with `UrlTooLong`. -/
theorem c6_validation_boundaries_witness :
    (UrlService.create_short_url (fun _ => .error "relative URL without a base")
        [] "tok0000000" 0 "not-a-url").1
      = .error (.InvalidUrl "relative URL without a base") ∧
    (UrlService.create_short_url (fun _ => .ok "https://e.com/")
        [] "tok0000000" 0 (String.mk (List.replicate 2048 'a'))).1
      = .ok ⟨"tok0000000", "https://e.com/", 0, 0⟩ ∧
    (UrlService.create_short_url (fun _ => .ok "https://e.com/")
        [] "tok0000000" 0 (String.mk (List.replicate 2049 'a'))).1
      = .error (.UrlTooLong "URL exceeds 2048 characters") := by
  refine ⟨?_, ?_, ?_⟩
  · exact (c6_validation_boundaries (fun _ => .error "relative URL without a base")
      [] "tok0000000" 0 "not-a-url").1 "relative URL without a base" rfl
  · exact (c6_validation_boundaries (fun _ => .ok "https://e.com/")
      [] "tok0000000" 0 (String.mk (List.replicate 2048 'a'))).2.2.2
      "https://e.com/" rfl
      (by show (List.replicate 2048 'a').length ≤ 2048
          rw [List.length_replicate])
  · exact (c6_validation_boundaries (fun _ => .ok "https://e.com/")
      [] "tok0000000" 0 (String.mk (List.replicate 2049 'a'))).2.2.1
      "https://e.com/" rfl
      (by show (List.replicate 2049 'a').length > 2048
          rw [List.length_replicate]
          omega)

/-- C8: in the transactional backend, every operation whose per-transaction
body fails attempts a rollback. If rollback succeeds, the original error is
returned unchanged; if rollback also fails, the operation reports a single
`DatabaseError` whose message `"Error: {e}. Rollback failed: {rollback}"`
contains both the rendering of the original error and the rollback failure
cause, so the original cause is never lost. In either case the table state is
the pre-transaction one. -/
theorem c8_rollback_failure_combines_causes (db : Db) (url : ShortenedUrl)
    (now freshId : Int) (code m : String) (cR : TxFinish) :
    (∀ e, PostgresStorage.save_url_tx db url now freshId = .error e →
        PostgresStorage.save_url db url now freshId cR (.fail m)
          = (.error (.DatabaseError
              ("Error: " ++ e.display ++ ". Rollback failed: " ++ m)), db) ∧
        PostgresStorage.save_url db url now freshId cR .ok = (.error e, db)) ∧
    (∀ e, PostgresStorage.get_url_tx db code true = .error e →
        PostgresStorage.get_url db code cR (.fail m)
          = (.error (.DatabaseError
              ("Error: " ++ e.display ++ ". Rollback failed: " ++ m)), db) ∧
        PostgresStorage.get_url db code cR .ok = (.error e, db)) ∧
    (∀ e, PostgresStorage.get_url_tx db code false = .error e →
        PostgresStorage.get_stats db code cR (.fail m)
          = (.error (.DatabaseError
              ("Error: " ++ e.display ++ ". Rollback failed: " ++ m)), db) ∧
        PostgresStorage.get_stats db code cR .ok = (.error e, db)) ∧
    (∀ e : UrlShortenerErrorType,
        (∃ p q, "Error: " ++ e.display ++ ". Rollback failed: " ++ m
            = p ++ e.display ++ q) ∧
        (∃ p, "Error: " ++ e.display ++ ". Rollback failed: " ++ m = p ++ m)) := by
  refine ⟨?_, ?_, ?_, ?_⟩
  · intro e he
    constructor <;> simp [PostgresStorage.save_url, PostgresStorage.finish_tx, he]
  · intro e he
    constructor <;> simp [PostgresStorage.get_url, PostgresStorage.finish_tx, he]
  · intro e he
    constructor <;> simp [PostgresStorage.get_stats, PostgresStorage.finish_tx, he]
  · intro e
    refine ⟨⟨"Error: ", ". Rollback failed: " ++ m, ?_⟩,
      ⟨"Error: " ++ e.display ++ ". Rollback failed: ", rfl⟩⟩
    rw [String.append_assoc]

/-- Witness for C8: a colliding insert (rollback failing and succeeding) and
a missing-code resolve on a one-row table. -/
theorem c8_rollback_failure_combines_causes_witness :
    PostgresStorage.save_url [⟨1, "https://a.com/", "abc", 0, 0⟩]
        ⟨0, "https://b.com/", "abc", 0, 0⟩ 1 2 .ok (.fail "connection reset")
      = (.error (.DatabaseError
          "Error: DatabaseError(\"Short URL already exists\"). Rollback failed: connection reset"),
         [⟨1, "https://a.com/", "abc", 0, 0⟩]) ∧
    PostgresStorage.get_url [⟨1, "https://a.com/", "abc", 0, 0⟩] "zzz"
        .ok (.fail "connection reset")
      = (.error (.DatabaseError
          "Error: NotFound. Rollback failed: connection reset"),
         [⟨1, "https://a.com/", "abc", 0, 0⟩]) ∧
    PostgresStorage.get_stats [⟨1, "https://a.com/", "abc", 0, 0⟩] "zzz" .ok .ok
      = (.error .NotFound, [⟨1, "https://a.com/", "abc", 0, 0⟩]) ∧
    (∃ p, "Error: " ++ UrlShortenerErrorType.NotFound.display
        ++ ". Rollback failed: " ++ "connection reset" = p ++ "connection reset") := by
  obtain ⟨h1, h2, h3, h4⟩ := c8_rollback_failure_combines_causes
      [⟨1, "https://a.com/", "abc", 0, 0⟩] ⟨0, "https://b.com/", "abc", 0, 0⟩
      1 2 "zzz" "connection reset" .ok
  refine ⟨?_, ?_, ?_, ?_⟩
  · rw [(h1 (.DatabaseError "Short URL already exists") (by decide)).1]
    decide
  · rw [(h2 .NotFound (by decide)).1]
    decide
  · exact (h3 .NotFound (by decide)).2
  · exact (h4 .NotFound).2

end UrlMap
